import Mathlib

/-!
Verification of the siwe-notepad client (`src/providers.ts`) against its
natural-language specification.

The single source file is a browser module: module-level constants and the
`watchSigner` subscription run at load time, a `DOMContentLoaded` handler wires
the DOM, and a handful of helper functions (`save`, `signOut`, `blockSave`,
`enableSave`, `connectedState`, `disconnectedState`, ...) mutate DOM state and
issue `fetch` requests.  We embed that mutable DOM/browser state as an explicit
`AppState` record, each helper as a state-transformer, and each asynchronous
`fetch` continuation as a separate settling function applied when the promise
settles (`FetchOutcome.resolved status` runs the `.then` callback, and
`FetchOutcome.rejected` models a transport error: with no `.catch` attached the
`.then` callback is skipped and the state is unchanged).

JavaScript-specific semantics that the claims depend on are modelled
explicitly: `JSON.stringify` string escaping and UTF-8 byte length (for the
43,610-byte save bound checked with `Buffer.byteLength`), the nullish
coalescing operator `??` (which does NOT treat the empty string as absent), and
the `typeof` operator (which returns a string, so `typeof x === undefined`
compares a string against the undefined value).
-/

/-- A JavaScript runtime value, as far as the embedded code inspects one:
`window.ethereum` is either absent (`undef`) or some provider object
(`objVal`); `typeof` produces a string (`str`). -/
inductive JSVal
  | undef
  | objVal
  | str (s : String)
  deriving Repr, DecidableEq

/-- The JavaScript `typeof` operator on the values we model.  It always
returns a STRING: `"undefined"`, `"object"` or `"string"`. -/
def jsTypeof : JSVal → JSVal
  | JSVal.undef => JSVal.str "undefined"
  | JSVal.objVal => JSVal.str "object"
  | JSVal.str _ => JSVal.str "string"

/-- JavaScript strict equality `v === undefined`: true only when `v` is the
undefined value itself.  A string (such as the result of `typeof`) is never
strictly equal to `undefined`. -/
def jsStrictEqValUndef : JSVal → Bool
  | JSVal.undef => true
  | _ => false

/-- JavaScript nullish coalescing `v ?? d` where `v` is a
string-or-null/undefined value (`none` = nullish).  Note `some ""` is NOT
nullish, so `(some "") ?? d = ""`. -/
def nullishCoalesce (v : Option String) (d : String) : String := v.getD d

/-- UTF-8 encoded size in bytes of one Unicode scalar value, as counted by
Node's `Buffer.byteLength` in its default utf8 encoding. -/
def utf8Len (c : Char) : Nat :=
  if c.toNat < 0x80 then 1
  else if c.toNat < 0x800 then 2
  else if c.toNat < 0x10000 then 3
  else 4

/-- UTF-8 byte length of a string (`Buffer.byteLength(s)`). -/
def byteLength (s : String) : Nat :=
  s.data.foldl (fun n c => n + utf8Len c) 0

/-- Lower-case hexadecimal digit, for `\u00XX` escapes. -/
def hexDigit (n : Nat) : Char :=
  if n < 10 then Char.ofNat (48 + n) else Char.ofNat (87 + n)

/-- How `JSON.stringify` renders one character inside a string literal
(ECMA-262 QuoteJSONString): `"` and `\` are backslash-escaped, the control
characters BS HT LF FF CR get their two-character escapes, every other code
point below U+0020 becomes `\u00XX`, and everything else is copied verbatim. -/
def escapeJsonChar (c : Char) : String :=
  if c.toNat = 34 then "\\\""
  else if c.toNat = 92 then "\\\\"
  else if c.toNat = 8 then "\\b"
  else if c.toNat = 9 then "\\t"
  else if c.toNat = 10 then "\\n"
  else if c.toNat = 12 then "\\f"
  else if c.toNat = 13 then "\\r"
  else if c.toNat < 32 then
    "\\u00" ++ String.mk [hexDigit (c.toNat / 16), hexDigit (c.toNat % 16)]
  else String.mk [c]

/-- `JSON.stringify` applied to a string value. -/
def quoteJsonString (s : String) : String :=
  "\"" ++ String.join (s.data.map escapeJsonChar) ++ "\""

/-- `JSON.stringify({ text })`: the body the client would PUT to
`/api/save` for document text `text`. -/
def savePayload (text : String) : String :=
  "\x7b\"text\":" ++ quoteJsonString text ++ "\x7d"

/-- `Buffer.byteLength(JSON.stringify({ text }))`, the quantity the `save`
function in `providers.ts` compares against 43610. -/
def savePayloadBytes (text : String) : Nat := byteLength (savePayload text)

/-- A network request issued by the client, as recorded by our model.  Only
the requests the analysed claims observe are listed. -/
inductive Request
  | putSave (body : String)
  | postSignOut
  deriving Repr, DecidableEq

/-- Whether a `fetch` promise settled by resolving (with some HTTP status;
`fetch` resolves even for non-2xx statuses) or by rejecting (a transport
error). -/
inductive FetchOutcome
  | resolved (status : Nat)
  | rejected
  deriving Repr, DecidableEq

/-- The mutable browser-visible state of `providers.ts`: the DOM fields the
module reads and writes, the module-level `wagmiProvider` variable, the
Mousetrap binding, and logs of alerts raised and requests issued. -/
structure AppState where
  /-- `notepad.value`. -/
  notepadValue : String
  /-- inner text of the `title` element (`updateTitle`). -/
  title : String
  /-- `unsaved.innerText` (`updateUnsavedChanges`). -/
  unsavedText : String
  /-- whether `window.onbeforeunload` is set (non-null). -/
  beforeUnloadGuard : Bool
  /-- whether the `save` click listener is attached to `saveButton`. -/
  saveClickBound : Bool
  /-- whether `saveButton` carries the `disabled` attribute. -/
  saveDisabled : Bool
  /-- whether `metamaskButton` has the `hidden` class. -/
  metamaskHidden : Bool
  /-- whether `walletConnectButton` has the `hidden` class. -/
  walletConnectHidden : Bool
  /-- whether the `signOut` click listener is attached to `closeButton`. -/
  closeClickBound : Bool
  /-- whether `closeButton` carries the `disabled` attribute. -/
  closeDisabled : Bool
  /-- whether `saveButton` has the `hidden` class. -/
  saveHidden : Bool
  /-- whether `disconnectButton` has the `hidden` class. -/
  disconnectHidden : Bool
  /-- whether the module-level `wagmiProvider` variable holds a provider. -/
  wagmiProviderSet : Bool
  /-- whether the Mousetrap `mod+s` binding is installed. -/
  mousetrapModS : Bool
  /-- alerts shown to the user, oldest first. -/
  alerts : List String
  /-- network requests issued, oldest first. -/
  network : List Request
  deriving Repr, DecidableEq

/-- `updateTitle` (providers.ts 293-298): writes the title element. -/
def updateTitle (s : AppState) (text : String) : AppState := { s with title := text }

/-- `updateUnsavedChanges` (providers.ts 300). -/
def updateUnsavedChanges (s : AppState) (text : String) : AppState :=
  { s with unsavedText := text }

/-- `updateNotepad` (providers.ts 302). -/
def updateNotepad (s : AppState) (text : String) : AppState :=
  { s with notepadValue := text }

/-- The alert text raised by `save` when the payload is oversized. -/
def oversizeAlert : String := "Your message is too big."

/-- `blockSave` (providers.ts 247-252): removes the save click listener, sets
the disabled attribute, clears the unsaved-changes indicator and the unload
guard.  It does NOT touch the Mousetrap binding. -/
def blockSave (s : AppState) : AppState :=
  { s with saveClickBound := false, saveDisabled := true,
           unsavedText := "", beforeUnloadGuard := false }

/-- `enableSave` (providers.ts 254-259): run on every `input` event of the
notepad; re-attaches the save click listener, enables the button, shows the
unsaved-changes indicator and installs the unload guard. -/
def enableSave (s : AppState) : AppState :=
  { s with saveClickBound := true, saveDisabled := false,
           unsavedText := "- (***Unsaved Changes***)", beforeUnloadGuard := true }

/-- `save` (providers.ts 183-196), synchronous part: reads `notepad.value`;
if `Buffer.byteLength(JSON.stringify({ text })) > 43610` it alerts and
returns without any network call, otherwise it issues
`PUT /api/save` with body `JSON.stringify({ text })`. -/
def save (s : AppState) : AppState :=
  let text := s.notepadValue
  if savePayloadBytes text > 43610 then
    { s with alerts := s.alerts ++ [oversizeAlert] }
  else
    { s with network := s.network ++ [Request.putSave (savePayload text)] }

/-- The continuation of `save`'s fetch (providers.ts 195):
`.then(() => blockSave())`.  The callback runs whenever the promise resolves,
whatever the HTTP status (the status is never inspected); on a transport
rejection there is no rejection handler, so nothing runs. -/
def saveSettled (s : AppState) : FetchOutcome → AppState
  | FetchOutcome.resolved _ => blockSave s
  | FetchOutcome.rejected => s

/-- `connectedState` (providers.ts 265-280): hides the connect buttons, wires
and enables the close button, shows save and disconnect, fills the notepad if
`text` is truthy (a JS string is truthy iff nonempty), runs `blockSave`, and
sets the title to `ens ?? address` — nullish coalescing, so an EMPTY string
`ens` is kept as the title. -/
def connectedState (s : AppState) (text address : String) (ens : Option String) :
    AppState :=
  let s1 : AppState :=
    { s with metamaskHidden := true, walletConnectHidden := true,
             closeClickBound := true, closeDisabled := false,
             saveHidden := false, disconnectHidden := false }
  let s2 := if text = "" then s1 else updateNotepad s1 text
  let s3 := blockSave s2
  updateTitle s3 (nullishCoalesce ens address)

/-- `disconnectedState` (providers.ts 282-291).  The guard
`typeof metamask !== undefined` compares the STRING produced by `typeof`
against the undefined value, so it is always true and the metamask button is
always un-hidden. -/
def disconnectedState (metamask : JSVal) (s : AppState) : AppState :=
  let s1 :=
    if jsStrictEqValUndef (jsTypeof metamask) = false
    then { s with metamaskHidden := false } else s
  { s1 with walletConnectHidden := false, closeClickBound := false,
            closeDisabled := true, saveHidden := true, disconnectHidden := true }

/-- The metamask-hiding check inside the `DOMContentLoaded` handler
(providers.ts 230-235): `if (typeof metamask === undefined)` hides the
metamask button.  `typeof` yields a string, so the strict comparison with the
undefined value never holds. -/
def domContentLoadedHide (metamask : JSVal) (s : AppState) : AppState :=
  if jsStrictEqValUndef (jsTypeof metamask) then
    { s with metamaskHidden := true }
  else s

/-- `signOut` (providers.ts 171-178), synchronous part: clears title and
notepad, then issues `POST /api/sign_out`. -/
def signOutRequest (s : AppState) : AppState :=
  let s1 := updateTitle s "Untitled"
  let s2 := updateNotepad s1 ""
  { s2 with network := s2.network ++ [Request.postSignOut] }

/-- The continuation of `signOut`'s fetch (providers.ts 177):
`.then(() => disconnectedState())`.  It runs only when the promise resolves
(any HTTP status); a transport rejection has no handler, so
`disconnectedState` is skipped. -/
def signOutSettled (metamask : JSVal) (s : AppState) : FetchOutcome → AppState
  | FetchOutcome.resolved _ => disconnectedState metamask s
  | FetchOutcome.rejected => s

/-- One complete `signOut` call whose `POST /api/sign_out` resolves with 200,
as the backend contract guarantees. -/
def signOutFull (metamask : JSVal) (s : AppState) : AppState :=
  signOutSettled metamask (signOutRequest s) (FetchOutcome.resolved 200)

/-- The `watchSigner` callback (providers.ts 77-85): with a signer present it
stores the provider (and starts `signIn`, whose observable steps are separate
events); with no signer it ONLY sets `wagmiProvider = undefined` — no UI
field is touched and no in-flight request is cancelled or invalidated. -/
def watchSignerCallback (s : AppState) (signerPresent : Bool) : AppState :=
  if signerPresent then { s with wagmiProviderSet := true }
  else { s with wagmiProviderSet := false }

/-- The continuation of `signIn`'s `/api/sign_in` fetch (providers.ts
157-168): on status 200 it parses `{text, address, ens}` and applies
`connectedState` unconditionally — nothing re-checks `wagmiProvider` or any
session identity; on any other status it only logs. -/
def signInVerifySettled (s : AppState) (o : FetchOutcome) (text address : String)
    (ens : Option String) : AppState :=
  match o with
  | FetchOutcome.resolved status =>
      if status = 200 then connectedState s text address ens else s
  | FetchOutcome.rejected => s

/-- The ENS lookup block of `signIn` (providers.ts 111-116):
`let ens = ""` then `ens = (await provider.lookupAddress(address)) ?? ""`
inside try/catch.  `lookupResult = none` models the lookup throwing (the
catch leaves `ens` as `""`); `some r` models a normal return whose value `r`
is a name (`some name`) or null (`none`). -/
def signInEns (lookupResult : Option (Option String)) : Option String :=
  match lookupResult with
  | none => some ""
  | some r => some (nullishCoalesce r "")

/-- The title written by `signIn` (providers.ts 118): `updateTitle(ens ??
address)`.  `ens` is a plain string here (never nullish), so the coalescing
never falls back to `address`. -/
def signInTitleArg (lookupResult : Option (Option String)) (address : String) :
    String :=
  nullishCoalesce (signInEns lookupResult) address

/-- The SiweMessage fields the client fills in (providers.ts 131-139). -/
structure SiweMessage where
  domain : String
  address : String
  chainId : Nat
  uri : String
  version : String
  statement : String
  nonce : String
  deriving Repr, DecidableEq

/-- The environment a sign-in attempt reads: `document.location`, the
connected provider's address and chain id, and the nonce the server returned
for this attempt (`GET /api/nonce`). -/
structure SignInEnv where
  locationHost : String
  locationOrigin : String
  providerAddress : String
  providerChainId : Nat
  serverNonce : String
  deriving Repr, DecidableEq

/-- The `new SiweMessage({...})` constructed by `signIn` (providers.ts
131-139): domain is `document.location.host`, uri is
`document.location.origin`, address and chainId come from the provider,
version is the literal `"1"`, the statement is the fixed string, and the
nonce is the one fetched for this attempt. -/
def signInMessage (env : SignInEnv) : SiweMessage :=
  { domain := env.locationHost
    address := env.providerAddress
    chainId := env.providerChainId
    uri := env.locationOrigin
    version := "1"
    statement := "SIWE Notepad Example"
    nonce := env.serverNonce }

/-- The text passed to `signMessage` (providers.ts 144-146):
`message.prepareMessage()`, i.e. the canonical serialization (`prepare`,
supplied by the siwe library) of the constructed message. -/
def signInSignedText (prepare : SiweMessage → String) (env : SignInEnv) : String :=
  prepare (signInMessage env)

/-- The user- and network-driven events our state machine steps over.  Click
events consult the listener bookkeeping (a click on `saveButton` runs `save`
only while the listener is attached); the Mousetrap `mod+s` handler runs
whenever the binding is installed (providers.ts 261-263). -/
inductive Op
  | input
  | saveClick
  | hotkey
  | saveResult (o : FetchOutcome)
  | disconnectClick
  | closeClick
  | signOutResult (o : FetchOutcome)
  | signerChange (present : Bool)
  | verifyResult (o : FetchOutcome) (text address : String) (ens : Option String)
  deriving Repr, DecidableEq

/-- Dispatch one event against the current state. -/
def stepOp (metamask : JSVal) (s : AppState) : Op → AppState
  | Op.input => enableSave s
  | Op.saveClick => if s.saveClickBound then save s else s
  | Op.hotkey => if s.mousetrapModS then save s else s
  | Op.saveResult o => saveSettled s o
  | Op.disconnectClick => signOutRequest s
  | Op.closeClick => if s.closeClickBound then signOutRequest s else s
  | Op.signOutResult o => signOutSettled metamask s o
  | Op.signerChange b => watchSignerCallback s b
  | Op.verifyResult o t a e => signInVerifySettled s o t a e

/-- Run a sequence of events. -/
def runOps (metamask : JSVal) (s : AppState) (ops : List Op) : AppState :=
  ops.foldl (stepOp metamask) s

/-- The state right after module load and the `DOMContentLoaded` handler
(providers.ts 198-245 plus the module-level `Mousetrap.bind` on 261): the
save click listener and the `mod+s` binding are installed, the close button
starts disabled, and the metamask-hiding check has run. -/
def initialDomLoaded (metamask : JSVal) : AppState :=
  domContentLoadedHide metamask
    { notepadValue := "", title := "", unsavedText := "",
      beforeUnloadGuard := false,
      saveClickBound := true, saveDisabled := false,
      metamaskHidden := false, walletConnectHidden := false,
      closeClickBound := false, closeDisabled := true,
      saveHidden := true, disconnectHidden := true,
      wagmiProviderSet := false, mousetrapModS := true,
      alerts := [], network := [] }

/-- A state reachable from page load by a sequence of events. -/
def reached (metamask : JSVal) (ops : List Op) : AppState :=
  runOps metamask (initialDomLoaded metamask) ops

/-- The UI-visible projection of the state: everything the user can see or
interact with (requests and the provider handle excluded). -/
structure UIView where
  notepadValue : String
  title : String
  unsavedText : String
  beforeUnloadGuard : Bool
  saveClickBound : Bool
  saveDisabled : Bool
  metamaskHidden : Bool
  walletConnectHidden : Bool
  closeClickBound : Bool
  closeDisabled : Bool
  saveHidden : Bool
  disconnectHidden : Bool
  deriving Repr, DecidableEq

/-- Project the UI-visible fields out of an `AppState`. -/
def uiView (s : AppState) : UIView :=
  { notepadValue := s.notepadValue, title := s.title,
    unsavedText := s.unsavedText, beforeUnloadGuard := s.beforeUnloadGuard,
    saveClickBound := s.saveClickBound, saveDisabled := s.saveDisabled,
    metamaskHidden := s.metamaskHidden,
    walletConnectHidden := s.walletConnectHidden,
    closeClickBound := s.closeClickBound, closeDisabled := s.closeDisabled,
    saveHidden := s.saveHidden, disconnectHidden := s.disconnectHidden }

/-- A connected, clean sample state: what `connectedState "hello" "0xABC"`
leaves behind for a user who just signed in. -/
def sampleConnectedClean : AppState :=
  { notepadValue := "hello", title := "0xABC", unsavedText := "",
    beforeUnloadGuard := false,
    saveClickBound := false, saveDisabled := true,
    metamaskHidden := true, walletConnectHidden := true,
    closeClickBound := true, closeDisabled := false,
    saveHidden := false, disconnectHidden := false,
    wagmiProviderSet := true, mousetrapModS := true,
    alerts := [], network := [] }

/-- A connected, dirty sample state: `sampleConnectedClean` after the user
typed (one `input` event). -/
def sampleConnectedDirty : AppState := enableSave sampleConnectedClean

/-- Claim C2 trace: from a connected dirty state, the save button is clicked
(the PUT goes out), the user types while the save is in flight, and then the
save response resolves with status 200. -/
def postSaveEditTrace : AppState :=
  runOps JSVal.objVal sampleConnectedDirty
    [Op.saveClick, Op.input, Op.saveResult (FetchOutcome.resolved 200)]

/-- Claim C3 trace: from a connected dirty state, the save button is clicked
and the save fetch resolves with HTTP status 500 (a non-success response). -/
def httpErrorSaveTrace : AppState :=
  runOps JSVal.objVal sampleConnectedDirty
    [Op.saveClick, Op.saveResult (FetchOutcome.resolved 500)]

/-- Claim C3 companion trace: the save fetch rejects with a transport error
instead. -/
def transportErrorSaveTrace : AppState :=
  runOps JSVal.objVal sampleConnectedDirty
    [Op.saveClick, Op.saveResult FetchOutcome.rejected]

/-- Claim C4 start state: page loaded (Disconnected UI), a provider is held
and a sign-in attempt is in its Verifying stage. -/
def sampleVerifying : AppState :=
  { initialDomLoaded JSVal.objVal with wagmiProviderSet := true }

/-- Claim C4 trace: the signer-change observer reports no signer while the
verify request is in flight, then the verify response arrives with 200. -/
def staleVerifyTrace : AppState :=
  runOps JSVal.objVal sampleVerifying
    [Op.signerChange false,
     Op.verifyResult (FetchOutcome.resolved 200) "hello" "0xABC" (some "")]

/-- Claim C5 state: `connectedState` applied to the freshly loaded page with
the server response `text := "hello"`, `address := "0xABC"`, `ens := ""`
(the spec's scenario). -/
def emptyEnsConnected : AppState :=
  connectedState (initialDomLoaded JSVal.objVal) "hello" "0xABC" (some "")

/-- Claim C7 trace: from a connected state, the disconnect control is clicked
(`signOut` runs, the POST goes out) and the `/api/sign_out` fetch rejects
with a transport error. -/
def signOutTransportTrace : AppState :=
  runOps JSVal.objVal sampleConnectedClean
    [Op.disconnectClick, Op.signOutResult FetchOutcome.rejected]

/-- Claim C10 witness trace: the user types, clicks save, and the save
resolves with 200 (so `blockSave` has detached the button's click
listener). -/
def hotkeyWitnessTrace : List Op :=
  [Op.input, Op.saveClick, Op.saveResult (FetchOutcome.resolved 200)]

/-- Claim C1: `save` rejects with the oversize alert and no network request
exactly when `Buffer.byteLength(JSON.stringify(\x7b text \x7d))` exceeds
43610, and otherwise issues the PUT with that JSON body. -/
theorem save_rejects_iff_oversize (D : String) (s : AppState)
    (h : s.notepadValue = D) :
    ((save s = { s with alerts := s.alerts ++ [oversizeAlert] } ∧
        (save s).network = s.network)
      ↔ savePayloadBytes D > 43610)
  ∧ (¬ savePayloadBytes D > 43610 →
      save s = { s with network := s.network ++ [Request.putSave (savePayload D)] }) := by
  subst h
  by_cases hb : savePayloadBytes s.notepadValue > 43610
  · refine ⟨⟨fun _ => hb, fun _ => ?_⟩, fun hc => absurd hb hc⟩
    simp [save, hb]
  · refine ⟨⟨?_, fun hc => absurd hc hb⟩, fun _ => ?_⟩
    · rintro ⟨-, hn⟩
      exfalso
      simp only [save, hb, if_false, ite_false] at hn
      simpa using congrArg List.length hn
    · simp [save, hb]

/-- Witness for C1 at the concrete document text `"hello"`. -/
theorem save_rejects_iff_oversize_witness :
    sampleConnectedDirty.notepadValue = "hello"
  ∧ ((save sampleConnectedDirty
        = { sampleConnectedDirty with
              alerts := sampleConnectedDirty.alerts ++ [oversizeAlert] } ∧
      (save sampleConnectedDirty).network = sampleConnectedDirty.network)
      ↔ savePayloadBytes "hello" > 43610)
  ∧ save sampleConnectedDirty
      = { sampleConnectedDirty with
            network := sampleConnectedDirty.network
              ++ [Request.putSave (savePayload "hello")] } :=
  ⟨rfl, (save_rejects_iff_oversize "hello" sampleConnectedDirty rfl).1,
    (save_rejects_iff_oversize "hello" sampleConnectedDirty rfl).2 (by decide)⟩

/-- Claim C2 is violated by the code: in the trace where the user types after
the save request was sent, the 200 response runs `blockSave` unconditionally
and clears the unsaved indicator, the unload guard and the save affordance —
the dirty state set by the later edit does NOT remain. -/
theorem save_response_clears_later_edits :
    postSaveEditTrace.unsavedText = ""
  ∧ postSaveEditTrace.beforeUnloadGuard = false
  ∧ postSaveEditTrace.saveClickBound = false
  ∧ postSaveEditTrace.saveDisabled = true
  ∧ postSaveEditTrace.network = [Request.putSave (savePayload "hello")] := by
  decide

/-- Claim C3 is violated by the code for non-success responses: `save`'s
`.then(() => blockSave())` never inspects the HTTP status, so a resolved 500
response clears the dirty indicators exactly as a 200 would; only a transport
rejection (no handler attached) leaves them in place. -/
theorem save_http_error_clears_dirty :
    (httpErrorSaveTrace.unsavedText = ""
      ∧ httpErrorSaveTrace.beforeUnloadGuard = false
      ∧ httpErrorSaveTrace.saveDisabled = true)
  ∧ (transportErrorSaveTrace.unsavedText = "- (***Unsaved Changes***)"
      ∧ transportErrorSaveTrace.beforeUnloadGuard = true
      ∧ transportErrorSaveTrace.saveDisabled = false) := by
  decide

/-- Claim C4 is violated by the code: the `watchSigner` callback's no-signer
branch only clears the `wagmiProvider` variable — no UI field changes — and
the sign-in verify continuation applies `connectedState` unconditionally on a
200, so a verify response arriving after the signer was observed absent is
NOT discarded: the UI ends Connected (save and disconnect visible, close
enabled), not Disconnected. -/
theorem no_signer_verify_still_connects :
    staleVerifyTrace.wagmiProviderSet = false
  ∧ staleVerifyTrace.saveHidden = false
  ∧ staleVerifyTrace.disconnectHidden = false
  ∧ staleVerifyTrace.closeDisabled = false
  ∧ staleVerifyTrace.metamaskHidden = true
  ∧ staleVerifyTrace.notepadValue = "hello" := by
  decide

/-- Claim C5 is violated by the code: with the server response
`ens := ""`, `connectedState` sets the title to `"" ?? address`, and nullish
coalescing keeps the empty string, so the title is empty rather than the
address; the same `ens ?? address` pattern in `signIn` (where `ens` is a
plain string initialised to `""`) likewise yields an empty title when the
ENS lookup throws. -/
theorem empty_ens_leaves_title_empty :
    emptyEnsConnected.title = ""
  ∧ ¬ emptyEnsConnected.title = "0xABC"
  ∧ emptyEnsConnected.notepadValue = "hello"
  ∧ emptyEnsConnected.saveDisabled = true
  ∧ signInTitleArg none "0xABC" = ""
  ∧ ¬ signInTitleArg none "0xABC" = "0xABC" := by
  decide

/-- Claim C6 is violated by the code: the check
`typeof metamask === undefined` compares the string returned by `typeof`
against the undefined value and is false for every value, so with no
injected provider (`window.ethereum` undefined) the metamask button is NOT
hidden after page load. -/
theorem metamask_button_not_hidden_without_provider :
    (initialDomLoaded JSVal.undef).metamaskHidden = false
  ∧ jsStrictEqValUndef (jsTypeof JSVal.undef) = false
  ∧ jsStrictEqValUndef (jsTypeof JSVal.objVal) = false
  ∧ domContentLoadedHide JSVal.undef (initialDomLoaded JSVal.undef)
      = initialDomLoaded JSVal.undef := by
  decide

/-- Claim C7 is violated by the code: when the `POST /api/sign_out` fetch
rejects with a transport error, the `.then(() => disconnectedState())`
callback is skipped (no rejection handler exists), so although title and
notepad were cleared before the request, the affordances keep their
Connected configuration: save and disconnect stay visible, close stays
enabled, and the connect buttons stay hidden. -/
theorem signout_transport_error_ui_unchanged :
    signOutTransportTrace.title = "Untitled"
  ∧ signOutTransportTrace.notepadValue = ""
  ∧ signOutTransportTrace.saveHidden = false
  ∧ signOutTransportTrace.disconnectHidden = false
  ∧ signOutTransportTrace.closeDisabled = false
  ∧ signOutTransportTrace.metamaskHidden = true
  ∧ signOutTransportTrace.walletConnectHidden = true := by
  decide

/-- Claim C8: with the backend contract's guaranteed 200 response, running
`signOut` twice yields the same UI-visible end state as running it once —
Disconnected affordances, title `"Untitled"`, empty notepad — and the second
call completes (every listener removal and class change involved is a
no-op-tolerant operation, modelled by plain field assignment). -/
theorem signout_idempotent_disconnected (metamask : JSVal) (s : AppState) :
    uiView (signOutFull metamask (signOutFull metamask s))
      = uiView (signOutFull metamask s)
  ∧ (signOutFull metamask s).title = "Untitled"
  ∧ (signOutFull metamask s).notepadValue = ""
  ∧ (signOutFull metamask s).metamaskHidden = false
  ∧ (signOutFull metamask s).walletConnectHidden = false
  ∧ (signOutFull metamask s).closeDisabled = true
  ∧ (signOutFull metamask s).saveHidden = true
  ∧ (signOutFull metamask s).disconnectHidden = true := by
  cases metamask <;>
    simp [signOutFull, signOutSettled, signOutRequest, disconnectedState,
      updateTitle, updateNotepad, uiView, jsTypeof, jsStrictEqValUndef]

/-- Claim C9: the SIWE challenge built by `signIn` uses the document host as
domain, the document origin as uri, the provider's address and chain id,
version `"1"`, the fixed statement, and the nonce fetched for this attempt;
the signature is requested over the canonical serialization of exactly that
challenge. -/
theorem siwe_message_construction (env : SignInEnv)
    (prepare : SiweMessage → String) :
    (signInMessage env).domain = env.locationHost
  ∧ (signInMessage env).uri = env.locationOrigin
  ∧ (signInMessage env).address = env.providerAddress
  ∧ (signInMessage env).chainId = env.providerChainId
  ∧ (signInMessage env).version = "1"
  ∧ (signInMessage env).statement = "SIWE Notepad Example"
  ∧ (signInMessage env).nonce = env.serverNonce
  ∧ signInSignedText prepare env = prepare (signInMessage env) :=
  ⟨rfl, rfl, rfl, rfl, rfl, rfl, rfl, rfl⟩

/-- Every event dispatch leaves the Mousetrap `mod+s` binding untouched:
no code path ever unbinds it (`blockSave` removes only the button's click
listener). -/
theorem stepOp_preserves_mousetrap (m : JSVal) (s : AppState) (op : Op) :
    (stepOp m s op).mousetrapModS = s.mousetrapModS := by
  cases op with
  | input => rfl
  | saveClick =>
      dsimp only [stepOp]
      split
      · dsimp only [save]; split <;> rfl
      · rfl
  | hotkey =>
      dsimp only [stepOp]
      split
      · dsimp only [save]; split <;> rfl
      · rfl
  | saveResult o => cases o <;> rfl
  | disconnectClick => rfl
  | closeClick =>
      dsimp only [stepOp]
      split <;> rfl
  | signOutResult o =>
      cases o with
      | resolved status =>
          dsimp only [stepOp, signOutSettled, disconnectedState]
          split <;> rfl
      | rejected => rfl
  | signerChange b => cases b <;> rfl
  | verifyResult o t a e =>
      cases o with
      | resolved status =>
          dsimp only [stepOp, signInVerifySettled]
          split
          · dsimp only [connectedState]; split <;> rfl
          · rfl
      | rejected => rfl

/-- Running any event sequence preserves the Mousetrap binding flag. -/
theorem runOps_preserves_mousetrap (m : JSVal) (ops : List Op) :
    ∀ s : AppState, (runOps m s ops).mousetrapModS = s.mousetrapModS := by
  induction ops with
  | nil => intro s; rfl
  | cons op l ih =>
      intro s
      calc (runOps m s (op :: l)).mousetrapModS
          = (runOps m (stepOp m s op) l).mousetrapModS := rfl
        _ = (stepOp m s op).mousetrapModS := ih (stepOp m s op)
        _ = s.mousetrapModS := stepOp_preserves_mousetrap m s op

/-- Claim C10: in every state reachable from page load — whatever the
environment's provider value and whatever events occurred, including a
completed save that detached the button's click listener — the `mod+s`
binding installed at module load is still present, and dispatching the
hotkey with a payload within the size bound issues the
`PUT /api/save` request. -/
theorem hotkey_always_triggers_save (m : JSVal) (ops : List Op) :
    (reached m ops).mousetrapModS = true
  ∧ (savePayloadBytes (reached m ops).notepadValue ≤ 43610 →
      (stepOp m (reached m ops) Op.hotkey).network
        = (reached m ops).network
          ++ [Request.putSave (savePayload (reached m ops).notepadValue)]) := by
  have hinit : (initialDomLoaded m).mousetrapModS = true := by
    cases m <;> rfl
  have hm : (reached m ops).mousetrapModS = true := by
    unfold reached
    rw [runOps_preserves_mousetrap]
    exact hinit
  refine ⟨hm, fun hle => ?_⟩
  dsimp only [stepOp]
  rw [if_pos hm]
  dsimp only [save]
  rw [if_neg (Nat.not_lt.mpr hle)]

/-- Witness for C10 on the trace where a completed save has already disabled
the save button: the hotkey dispatch still appends the PUT request. -/
theorem hotkey_always_triggers_save_witness :
    (reached JSVal.objVal hotkeyWitnessTrace).mousetrapModS = true
  ∧ (stepOp JSVal.objVal (reached JSVal.objVal hotkeyWitnessTrace) Op.hotkey).network
      = (reached JSVal.objVal hotkeyWitnessTrace).network
        ++ [Request.putSave
              (savePayload (reached JSVal.objVal hotkeyWitnessTrace).notepadValue)] :=
  ⟨(hotkey_always_triggers_save JSVal.objVal hotkeyWitnessTrace).1,
    (hotkey_always_triggers_save JSVal.objVal hotkeyWitnessTrace).2 (by decide)⟩
